import Mathlib

/-!
Verification of the MSwitch Direct demuxer (src/libavformat/mswitchdirect.c)
against its natural-language specification.

The development is a shallow embedding: the C data structures become Lean
structures, the C functions become executable Lean functions over them.
Threads are modelled by explicit state passing: a blocking operation that
would suspend the calling thread is represented by a distinguished
`blocked` result that leaves the state unchanged, and the current wall
clock (`av_gettime() / 1000`) is passed as an explicit `now` argument.
C `int64_t` timestamps become `Int`; the sentinel `AV_NOPTS_VALUE` becomes
`Option.none`.
-/

/-- PACKET_BUFFER_SIZE from mswitchdirect.c line 51: capacity of every
per-source packet ring ("~3 seconds at 30fps"). -/
def PACKET_BUFFER_SIZE : Nat := 90

/-- An AVPacket as the switcher observes it: presentation and decode
timestamps (AV_NOPTS_VALUE modelled as none), the flags word
(AV_PKT_FLAG_KEY is bit 0), and the payload bytes. -/
structure AVPacketM where
  pts : Option Int
  dts : Option Int
  flags : Nat
  data : List Nat
  deriving DecidableEq, Repr, Inhabited

/-- The PacketBuffer struct from mswitchdirect.c lines 54-62: a ring of
PACKET_BUFFER_SIZE packet slots with read/write indices, a count and an
eof flag. The mutex/condvar pair is represented by the sequential
semantics of the operations below. -/
structure PacketBuffer where
  packets : Nat → AVPacketM
  read_index : Nat
  write_index : Nat
  count : Nat
  eof : Bool

/-- State produced by packet_buffer_init (line 126): zeroed indices and
count, eof clear, slot contents irrelevant. -/
def packet_buffer_init_state : PacketBuffer :=
  { packets := fun _ => default, read_index := 0, write_index := 0,
    count := 0, eof := false }

/-- Result of packet_buffer_put: 0 on success (with the updated ring),
-1 ("closed") when eof was set, and `blocked` standing for the
pthread_cond_wait taken while the ring is full. -/
inductive PutResult where
  | ok (buf : PacketBuffer)
  | closed
  | blocked

/-- Result of the blocking packet_buffer_get: 0 with the moved-out packet,
AVERROR_EOF on empty+eof, and `blocked` standing for the
pthread_cond_wait taken while the ring is empty and not eof. -/
inductive GetResult where
  | ok (pkt : AVPacketM) (buf : PacketBuffer)
  | eofR
  | blocked

/-- Result of the non-blocking packet_buffer_try_get. The C function
returns an int, so AVERROR_EOF (`eofR`) is representable; whether it is
ever produced is settled by claim C7. -/
inductive TryGetResult where
  | ok (pkt : AVPacketM) (buf : PacketBuffer)
  | again
  | eofR

/-- packet_buffer_put, mswitchdirect.c lines 147-170: wait while the ring
is full and eof is clear; return -1 if eof; otherwise store the cloned
packet at write_index, advance it modulo the capacity and bump count. -/
def packet_buffer_put (buf : PacketBuffer) (pkt : AVPacketM) : PutResult :=
  if buf.count ≥ PACKET_BUFFER_SIZE ∧ buf.eof = false then
    .blocked
  else if buf.eof then
    .closed
  else
    .ok { buf with
          packets := fun j => if j = buf.write_index then pkt else buf.packets j,
          write_index := (buf.write_index + 1) % PACKET_BUFFER_SIZE,
          count := buf.count + 1 }

/-- packet_buffer_get, mswitchdirect.c lines 172-196: wait while the ring
is empty and eof is clear; return AVERROR_EOF on empty+eof; otherwise
move the packet out of read_index, advance it and decrement count. -/
def packet_buffer_get (buf : PacketBuffer) : GetResult :=
  if buf.count = 0 ∧ buf.eof = false then
    .blocked
  else if buf.count = 0 ∧ buf.eof = true then
    .eofR
  else
    .ok (buf.packets buf.read_index)
       { buf with read_index := (buf.read_index + 1) % PACKET_BUFFER_SIZE,
                  count := buf.count - 1 }

/-- packet_buffer_try_get, mswitchdirect.c lines 199-219: if the ring is
empty return AVERROR(EAGAIN) at once — the eof flag is not consulted —
otherwise move the packet out of read_index exactly as the blocking get
does. -/
def packet_buffer_try_get (buf : PacketBuffer) : TryGetResult :=
  if buf.count = 0 then
    .again
  else
    .ok (buf.packets buf.read_index)
       { buf with read_index := (buf.read_index + 1) % PACKET_BUFFER_SIZE,
                  count := buf.count - 1 }

/-- Setting the eof flag and broadcasting the condition, as done at
mswitchdirect.c lines 259-262 (reader exit) and 1000-1003 (close). -/
def packet_buffer_set_eof (buf : PacketBuffer) : PacketBuffer :=
  { buf with eof := true }

/-- The logical FIFO content of the ring: the `count` packets starting at
read_index, in dequeue order. -/
def bufContents (buf : PacketBuffer) : List AVPacketM :=
  (List.range buf.count).map
    (fun i => buf.packets ((buf.read_index + i) % PACKET_BUFFER_SIZE))

/-- One operation on a packet queue, for stating whole-history
invariants. -/
inductive QueueOp where
  | putOp (pkt : AVPacketM)
  | getOp
  | tryGetOp
  | setEofOp

/-- The state reached after one queue operation; a blocked, closed or
end-of-stream outcome leaves the ring unchanged. -/
def apply_queue_op (buf : PacketBuffer) (op : QueueOp) : PacketBuffer :=
  match op with
  | .putOp pkt =>
      match packet_buffer_put buf pkt with
      | .ok buf2 => buf2
      | .closed => buf
      | .blocked => buf
  | .getOp =>
      match packet_buffer_get buf with
      | .ok _ buf2 => buf2
      | .eofR => buf
      | .blocked => buf
  | .tryGetOp =>
      match packet_buffer_try_get buf with
      | .ok _ buf2 => buf2
      | .again => buf
      | .eofR => buf
  | .setEofOp => packet_buffer_set_eof buf

/-- The queue state after a whole history of operations starting from the
freshly initialised ring. -/
def run_queue_ops (ops : List QueueOp) : PacketBuffer :=
  ops.foldl apply_queue_op packet_buffer_init_state


/-- True for the H.264 NAL unit types the switcher treats as keyframe
markers: 5 (IDR), 7 (SPS), 8 (PPS) — mswitchdirect.c lines 718, 722, 728. -/
def is_key_nal_type (t : Nat) : Bool :=
  t = 5 ∨ t = 7 ∨ t = 8

/-- The H.264 start-code scan loop of mswitchdirect_read_packet, lines
719-735, expressed over the suffix of the payload that starts at loop
index i: the loop body runs while i < size - 4, i.e. while at least five
bytes b0..b4 remain in the suffix; a 00 00 01 start code classifies the
low 5 bits of b3, a 00 00 00 01 start code classifies the low 5 bits of
b4 (the extra C guard i + 4 < size coincides with the loop bound);
otherwise the loop advances one byte, which drops one byte of the
suffix. The first keyframe NAL type found stops the scan. -/
def h264_scan_suffix : List Nat → Bool
  | b0 :: b1 :: b2 :: b3 :: b4 :: rest =>
      if b0 = 0 ∧ b1 = 0 ∧ b2 = 1 then
        if is_key_nal_type (b3 % 32) then true
        else h264_scan_suffix (b1 :: b2 :: b3 :: b4 :: rest)
      else if b0 = 0 ∧ b1 = 0 ∧ b2 = 0 ∧ b3 = 1 then
        if is_key_nal_type (b4 % 32) then true
        else h264_scan_suffix (b1 :: b2 :: b3 :: b4 :: rest)
      else h264_scan_suffix (b1 :: b2 :: b3 :: b4 :: rest)
  | _ => false

/-- The keyframe test applied on the try_get success path of the read
loop, lines 712-736: the container AV_PKT_FLAG_KEY bit, and when that is
unset and the payload is longer than 4 bytes, the H.264 NAL scan. -/
def read_is_keyframe (pkt : AVPacketM) : Bool :=
  if pkt.flags &&& 1 ≠ 0 then true
  else if pkt.data.length > 4 then h264_scan_suffix pkt.data
  else false

/-- The MSwitchDirectContext fields the read path, the health monitor and
the control plane exchange (mswitchdirect.c lines 79-116). Per-source
arrays become functions of the source index; the per-source buffers are a
list indexed by source. -/
structure MSwitchState where
  num_sources : Nat
  buffers : List PacketBuffer
  active_source_index : Nat
  pending_switch_to : Int
  wait_for_iframe : Bool
  pending_switch_time : Int
  last_manual_switch_time : Int
  auto_failover_enabled : Bool
  is_healthy : Nat → Bool
  first_packet : Bool
  last_output_pts : Option Int
  last_output_dts : Option Int
  ts_offset : Nat → Int
  last_consumption_time : Nat → Int

/-- The buffer of source i (ctx->sources[i].buffer). -/
def MSwitchState.buf (st : MSwitchState) (i : Nat) : PacketBuffer :=
  st.buffers.getD i packet_buffer_init_state

/-- Store an updated buffer back for source i. -/
def setBuf (st : MSwitchState) (i : Nat) (b : PacketBuffer) : MSwitchState :=
  { st with buffers := st.buffers.set i b }

/-- Result of one mswitchdirect_read_packet call: an emitted packet, the
AVERROR(EAGAIN) retry signal, a propagated negative error (AVERROR_EOF),
or a suspension inside a blocking queue get. Every outcome carries the
context state it leaves behind. -/
inductive ReadResult where
  | ok (pkt : AVPacketM) (st : MSwitchState)
  | again (st : MSwitchState)
  | err (st : MSwitchState)
  | blocked (st : MSwitchState)

/-- The packet an outcome delivered downstream, if any. -/
def ReadResult.emitted : ReadResult → Option AVPacketM
  | .ok pkt _ => some pkt
  | _ => none

/-- The dts of the packet an outcome delivered downstream, if any. -/
def ReadResult.emittedDts (r : ReadResult) : Option Int :=
  match r with
  | .ok pkt _ => pkt.dts
  | _ => none

/-- The context state an outcome leaves behind. -/
def ReadResult.nextState : ReadResult → MSwitchState
  | .ok _ st => st
  | .again st => st
  | .err st => st
  | .blocked st => st

/-- True when the outcome is the AVERROR(EAGAIN) retry signal. -/
def ReadResult.isAgain : ReadResult → Bool
  | .again _ => true
  | _ => false

/-- The switch finalisation writes, performed identically at
mswitchdirect.c lines 694-702 (forced path) and 753-764 (try_get path):
make the pending source active, clear the pending switch and the
I-frame wait, and reset the timestamp-normaliser state, zeroing the new
source's offset. -/
def finalize_switch (st : MSwitchState) (pending : Nat) : MSwitchState :=
  { st with
    active_source_index := pending,
    pending_switch_to := -1,
    wait_for_iframe := false,
    first_packet := true,
    last_output_pts := none,
    last_output_dts := none,
    ts_offset := fun j => if j = pending then 0 else st.ts_offset j }

/-- The timestamp normalisation block of mswitchdirect_read_packet, lines
858-897, applied to every packet about to be emitted: record the
consumption time of the active source; on the first packet seed the
baseline from the packet and emit it unmodified; otherwise reanchor the
per-source offset when it is more than 90000 ticks away from the offset
that would make this packet continuous, then add the offset to pts and
dts (each only when present) and remember the rewritten values. -/
def normalize_timestamps (st : MSwitchState) (active : Nat) (now : Int)
    (pkt : AVPacketM) : MSwitchState × AVPacketM :=
  let st0 := { st with
    last_consumption_time :=
      fun j => if j = active then now else st.last_consumption_time j }
  if st0.first_packet then
    ({ st0 with
       first_packet := false,
       last_output_pts := match pkt.pts with
         | some p => some p
         | none => st0.last_output_pts,
       last_output_dts := match pkt.dts with
         | some d => some d
         | none => st0.last_output_dts }, pkt)
  else
    let expected := st0.last_output_dts
    let actual := match pkt.dts with
      | some d => some d
      | none => pkt.pts
    let st1 := match actual, expected with
      | some a, some e =>
          if 90000 < (e - a - st0.ts_offset active).natAbs then
            { st0 with ts_offset :=
                fun j => if j = active then e - a else st0.ts_offset j }
          else st0
      | _, _ => st0
    let off := st1.ts_offset active
    let newPts := match pkt.pts with
      | some p => some (p + off)
      | none => none
    let newDts := match pkt.dts with
      | some d => some (d + off)
      | none => none
    let st2 := { st1 with
      last_output_pts := match newPts with
        | some p => some p
        | none => st1.last_output_pts,
      last_output_dts := match newDts with
        | some d => some d
        | none => st1.last_output_dts }
    (st2, { pkt with pts := newPts, dts := newDts })

/-- The tail of the forced-switch path, mswitchdirect.c lines 677-708:
given the outcome of the blocking get on the pending source (the state
already has wait_for_iframe cleared), propagate errors; discard a
non-keyframe — judged by the AV_PKT_FLAG_KEY bit alone — with
AVERROR(EAGAIN), keeping the pending switch; on a keyframe finalise the
switch and emit the packet through timestamp normalisation. -/
def forced_switch_continue (st : MSwitchState) (now : Int) (pending : Nat)
    (r : GetResult) : ReadResult :=
  match r with
  | .blocked => .blocked st
  | .eofR => .err st
  | .ok pkt buf2 =>
      let st1 := setBuf st pending buf2
      if pkt.flags &&& 1 = 0 then
        .again st1
      else
        let st2 := finalize_switch st1 pending
        let res := normalize_timestamps st2 pending now pkt
        .ok res.2 res.1

/-- The first healthy source scan shared by the two failover sites
(mswitchdirect.c lines 383-389 and 822-828): walk i upward from the given
index and return the first index below `bound` whose source is healthy,
or -1. -/
def first_healthy_from (healthy : Nat → Bool) (bound i : Nat) : Int :=
  if i < bound then
    if healthy i then (i : Int) else first_healthy_from healthy bound (i+1)
  else -1
termination_by bound - i

/-- The two-stage failover target selection duplicated at
mswitchdirect.c lines 373-390 (health monitor) and 813-829 (read path):
when the active source is not the black interim (last source), the target
is the black interim; when the active source is the black interim, the
target is the first healthy source among the others, or -1 when none is
healthy. -/
def failover_best_source (healthy : Nat → Bool) (active num_sources : Nat) : Int :=
  let black := num_sources - 1
  if active ≠ black then (black : Int)
  else first_healthy_from healthy black 0

/-- The end-of-stream failover block of mswitchdirect_read_packet, lines
793-854, reached when the blocking get on the active queue returned
AVERROR_EOF: without auto-failover the error propagates; within 3 s of a
manual switch sleep and retry; otherwise select the two-stage target and,
when one exists and no switch is pending, install it as the pending
switch stamped with the current time and retry; with no target keep
serving (retry); with a switch already pending propagate the error. -/
def eof_failover (st : MSwitchState) (now : Int) : ReadResult :=
  if st.auto_failover_enabled then
    if now - st.last_manual_switch_time < 3000 then .again st
    else
      if 0 ≤ failover_best_source st.is_healthy st.active_source_index
               st.num_sources then
        if st.pending_switch_to < 0 then
          .again { st with
            pending_switch_to := failover_best_source st.is_healthy
              st.active_source_index st.num_sources,
            wait_for_iframe := true,
            pending_switch_time := now }
        else .err st
      else .again st
  else .err st

/-- mswitchdirect_read_packet, lines 644-900, as a sequential step
function; `now` stands for av_gettime()/1000 sampled during the call.
With a pending switch: try_get the pending queue; if it yields a packet,
finalise the switch when the packet is a keyframe, or the I-frame wait is
off, or more than 3 s have passed since the switch was installed, and
otherwise discard it and serve the active queue; if the pending queue is
empty, serve the active queue non-blockingly, and when that is empty too
clear the I-frame wait and force a blocking get on the pending queue.
With no pending switch: block on the active queue and run the
end-of-stream failover on AVERROR_EOF. Every emitted packet passes
through normalize_timestamps. -/
def mswitchdirect_read_packet (st : MSwitchState) (now : Int) : ReadResult :=
  let active := st.active_source_index
  let pending := st.pending_switch_to
  if 0 ≤ pending then
    let p := pending.toNat
    match packet_buffer_try_get (st.buf p) with
    | .eofR => .err st
    | .again =>
        match packet_buffer_try_get (st.buf active) with
        | .eofR => .err st
        | .again =>
            let st1 := { st with wait_for_iframe := false }
            forced_switch_continue st1 now p (packet_buffer_get (st1.buf p))
        | .ok pkt buf2 =>
            let st1 := setBuf st active buf2
            let res := normalize_timestamps st1 active now pkt
            .ok res.2 res.1
    | .ok pkt buf2 =>
        let st1 := setBuf st p buf2
        let is_keyframe := read_is_keyframe pkt
        let force_switch : Bool := decide (3000 < now - st.pending_switch_time)
        if is_keyframe = true ∨ st.wait_for_iframe = false ∨ force_switch = true then
          let st2 := finalize_switch st1 p
          let res := normalize_timestamps st2 p now pkt
          .ok res.2 res.1
        else
          match packet_buffer_get (st1.buf active) with
          | .blocked => .blocked st1
          | .eofR =>
              if st1.auto_failover_enabled then .again st1 else .err st1
          | .ok pkt2 buf3 =>
              let st2 := setBuf st1 active buf3
              let res := normalize_timestamps st2 active now pkt2
              .ok res.2 res.1
  else
    match packet_buffer_get (st.buf active) with
    | .blocked => .blocked st
    | .eofR => eof_failover st now
    | .ok pkt buf2 =>
        let st1 := setBuf st active buf2
        let res := normalize_timestamps st1 active now pkt
        .ok res.2 res.1

/-- C strstr over character lists: the first suffix of the haystack that
begins with the needle, or none. Used at mswitchdirect.c lines 443-446. -/
def strstr (hay pat : List Char) : Option (List Char) :=
  match hay with
  | [] => if pat.isPrefixOf ([] : List Char) then some [] else none
  | c :: rest =>
      if pat.isPrefixOf (c :: rest) then some (c :: rest)
      else strstr rest pat

/-- C strchr over character lists: the first suffix beginning with the
sought character, or none. Used at mswitchdirect.c line 449. -/
def strchr (s : List Char) (c : Char) : Option (List Char) :=
  match s with
  | [] => none
  | a :: rest => if a = c then some (a :: rest) else strchr rest c

/-- True for the characters C isspace accepts in the default locale,
which atoi skips before parsing. -/
def c_isspace (c : Char) : Bool :=
  c = ' ' ∨ c = '\t' ∨ c = '\n' ∨ c = '\x0b' ∨ c = '\x0c' ∨ c = '\r'

/-- The digit-accumulation phase of C atoi: consume leading decimal
digits, stopping at the first non-digit. -/
def atoi_digits (s : List Char) (acc : Int) : Int :=
  match s with
  | [] => acc
  | c :: rest =>
      if c.isDigit then atoi_digits rest (acc * 10 + ((c.toNat : Int) - 48))
      else acc

/-- The sign phase of C atoi, after whitespace has been skipped. -/
def atoi_after_ws (s : List Char) : Int :=
  match s with
  | [] => 0
  | c :: rest =>
      if c = '-' then - atoi_digits rest 0
      else if c = '+' then atoi_digits rest 0
      else atoi_digits (c :: rest) 0

/-- The whitespace-skipping phase of C atoi. -/
def atoi_skip_ws (s : List Char) : List Char :=
  match s with
  | [] => []
  | c :: rest => if c_isspace c then atoi_skip_ws rest else c :: rest

/-- C atoi: skip whitespace, read an optional sign, accumulate digits;
yields 0 when no digits follow. Called at mswitchdirect.c line 452. -/
def atoi (s : List Char) : Int :=
  atoi_after_ws (atoi_skip_ws s)

/-- The control-plane state the HTTP server thread reads and writes:
num_sources, active_source_index and last_manual_switch_time of the
MSwitchDirectContext. -/
structure CtrlState where
  num_sources : Nat
  active_source_index : Nat
  last_manual_switch_time : Int
  deriving DecidableEq, Repr

/-- The request parsing of control_server_thread, mswitchdirect.c lines
441-454: find "POST /switch/" (or else "GET /switch/") anywhere in the
received bytes, locate the first slash of the match, skip the 8
characters of "/switch/" and hand the rest to atoi; -1 when no switch
path is present. -/
def parse_switch_target (req : List Char) : Int :=
  let sp := match strstr req ("POST /switch/".toList) with
    | some s => some s
    | none => strstr req ("GET /switch/".toList)
  match sp with
  | some s =>
      match strchr s '/' with
      | some ps => atoi (ps.drop 8)
      | none => -1
  | none => -1

/-- The 200 response built at mswitchdirect.c lines 461-466 (braces in
the JSON written as \x7b and \x7d). -/
def ctrl_response_ok (n : Int) : String :=
  "HTTP/1.1 200 OK\r\nContent-Type: application/json\r\nContent-Length: 25\r\n\r\n\x7b\"status\":\"ok\",\"source\":\"" ++ toString n ++ "\"\x7d"

/-- The 400 response built at mswitchdirect.c lines 468-473. -/
def ctrl_response_bad : String :=
  "HTTP/1.1 400 Bad Request\r\nContent-Type: application/json\r\nContent-Length: 31\r\n\r\n\x7b\"error\":\"invalid source\"\x7d"

/-- The empty-read 400 response built at mswitchdirect.c lines 476-479. -/
def ctrl_response_empty : String :=
  "HTTP/1.1 400 Bad Request\r\nContent-Length: 0\r\n\r\n"

/-- One connection handled by control_server_thread, lines 437-483: on a
non-empty read, parse the switch target; when it lies in
[0, num_sources) store it as the active source under the state mutex and
answer 200, otherwise answer 400 leaving the state alone. -/
def control_handle_request (req : List Char) (st : CtrlState) :
    CtrlState × String :=
  if req.length = 0 then
    (st, ctrl_response_empty)
  else
    let new_source := parse_switch_target req
    if 0 ≤ new_source ∧ new_source < (st.num_sources : Int) then
      ({ st with active_source_index := new_source.toNat },
       ctrl_response_ok new_source)
    else
      (st, ctrl_response_bad)

/-- The active-source liveness classification of health_monitor_thread,
mswitchdirect.c lines 312-333, for a sweep past the startup grace
period: healthy within 3 s of a manual switch; when no packet was ever
read, unhealthy only once startup grace plus source timeout have elapsed
since startup; when last_packet_time was never set, healthy; otherwise
healthy iff now - last_packet_time ≤ source_timeout_ms. The
last_consumption_time argument is what the surrounding comments claim is
consulted; the code never reads it. -/
def active_source_health (now last_manual_switch_time startup_time
    startup_grace_period_ms source_timeout_ms packets_read
    last_packet_time last_consumption_time : Int) : Bool :=
  if now - last_manual_switch_time < 3000 then true
  else if packets_read = 0 then
    if startup_grace_period_ms + source_timeout_ms ≤ now - startup_time then
      false
    else true
  else if last_packet_time = 0 then true
  else decide (now - last_packet_time ≤ source_timeout_ms)

/-- Modelled from the spec (section 4.6) for comparison with the code:
the claimed classification in which the final test reads the consumption
clock, `now - last_consumption_time ≤ source_timeout_ms`, with the
never-consumed guard on last_consumption_time. -/
def active_source_health_claim (now last_manual_switch_time startup_time
    startup_grace_period_ms source_timeout_ms packets_read
    last_packet_time last_consumption_time : Int) : Bool :=
  if now - last_manual_switch_time < 3000 then true
  else if packets_read = 0 then
    if startup_grace_period_ms + source_timeout_ms ≤ now - startup_time then
      false
    else true
  else if last_consumption_time = 0 then true
  else decide (now - last_consumption_time ≤ source_timeout_ms)

/-- The failover block at the end of one health-monitor sweep,
mswitchdirect.c lines 368-409: when the active source is unhealthy,
select the two-stage target and, when one exists and no switch is
already pending, install it as the pending switch (with the I-frame wait
and the current time); in every other case change nothing. -/
def health_failover_step (st : MSwitchState) (now : Int) : MSwitchState :=
  if st.is_healthy st.active_source_index then st
  else
    if 0 ≤ failover_best_source st.is_healthy st.active_source_index
             st.num_sources then
      if st.pending_switch_to < 0 then
        { st with
          pending_switch_to := failover_best_source st.is_healthy
            st.active_source_index st.num_sources,
          wait_for_iframe := true,
          pending_switch_time := now }
      else st
    else st

/-! ### Concrete inputs used in counterexamples and witnesses -/

/-- A ring holding the given packets in FIFO order from slot 0. -/
def bufWith (ps : List AVPacketM) (e : Bool) : PacketBuffer :=
  { packets := fun i => ps.getD i default,
    read_index := 0,
    write_index := ps.length % PACKET_BUFFER_SIZE,
    count := ps.length,
    eof := e }

/-- A keyframe packet with dts 1000. -/
def pkt_dts1000 : AVPacketM := { pts := some 1000, dts := some 1000, flags := 1, data := [] }

/-- A keyframe packet with dts 50. -/
def pkt_key50 : AVPacketM := { pts := some 50, dts := some 50, flags := 1, data := [] }

/-- A non-keyframe packet (AV_PKT_FLAG_KEY clear, no NAL data). -/
def pkt_nonkey : AVPacketM := { pts := some 200, dts := some 200, flags := 0, data := [] }

/-- A packet whose payload contains an IDR NAL (type 5 behind a
00 00 01 start code) but whose AV_PKT_FLAG_KEY bit is clear. -/
def pkt_idr_noflag : AVPacketM := { pts := some 7, dts := some 7, flags := 0, data := [0, 0, 1, 101, 0, 0] }

/-- Initial state for the C1 trace: two sources, source 0 active with one
keyframe queued and then end-of-stream, source 1 (the black interim)
holding a keyframe whose native dts 50 lies before source 0's timeline. -/
def c1_state0 : MSwitchState :=
  { num_sources := 2,
    buffers := [bufWith [pkt_dts1000] true, bufWith [pkt_key50] false],
    active_source_index := 0,
    pending_switch_to := -1,
    wait_for_iframe := false,
    pending_switch_time := 0,
    last_manual_switch_time := 0,
    auto_failover_enabled := true,
    is_healthy := fun _ => true,
    first_packet := true,
    last_output_pts := none,
    last_output_dts := none,
    ts_offset := fun _ => 0,
    last_consumption_time := fun _ => 0 }

/-- State for the C2 trace: a switch to source 1 has been pending since
time 0 and source 1's queue offers only a non-keyframe packet. -/
def c2_state0 : MSwitchState :=
  { num_sources := 2,
    buffers := [bufWith [] false, bufWith [pkt_nonkey] false],
    active_source_index := 0,
    pending_switch_to := 1,
    wait_for_iframe := true,
    pending_switch_time := 0,
    last_manual_switch_time := 0,
    auto_failover_enabled := true,
    is_healthy := fun _ => true,
    first_packet := false,
    last_output_pts := some 1000,
    last_output_dts := some 1000,
    ts_offset := fun _ => 0,
    last_consumption_time := fun _ => 0 }

/-- A three-source state on the black interim (source 2) with every real
source unhealthy and no pending switch, used to exercise the failover
policy. -/
def c3_state_black : MSwitchState :=
  { num_sources := 3,
    buffers := [bufWith [] false, bufWith [pkt_key50] false, bufWith [] true],
    active_source_index := 2,
    pending_switch_to := -1,
    wait_for_iframe := false,
    pending_switch_time := 0,
    last_manual_switch_time := 0,
    auto_failover_enabled := true,
    is_healthy := fun i => if i = 1 then true else false,
    first_packet := false,
    last_output_pts := some 1000,
    last_output_dts := some 1000,
    ts_offset := fun _ => 0,
    last_consumption_time := fun _ => 0 }

/-- The ring of c2_state0's source 1 after its single packet was taken
out by try_get. -/
def c2_buf1_after : PacketBuffer :=
  { packets := fun i => [pkt_nonkey].getD i default,
    read_index := 1, write_index := 1, count := 0, eof := false }

/-- The character of one decimal digit d < 10. -/
def natDigitChar (d : Nat) : Char := Char.ofNat (48 + d)

/-- Decimal rendering of n in front of acc, most significant digit
first; the fuel argument only drives the structural recursion and any
fuel above n suffices. -/
def natDecimalAux : Nat → Nat → List Char → List Char
  | 0, _, acc => acc
  | fuel + 1, n, acc =>
      if n < 10 then natDigitChar n :: acc
      else natDecimalAux fuel (n / 10) (natDigitChar (n % 10) :: acc)

/-- The decimal digit string of n. -/
def natDecimal (n : Nat) : List Char := natDecimalAux (n + 1) n []

/-- The request bytes of a valid manual switch to source n. -/
def switch_request (n : Nat) : List Char :=
  ("POST /switch/".toList) ++ natDecimal n ++ (" HTTP/1.1\r\n\r\n".toList)

/-- The request bytes of "GET /status". -/
def status_request : List Char := "GET /status HTTP/1.1\r\n\r\n".toList

/-- A switch request whose target text "-1" does not begin with a
decimal digit. -/
def switch_request_neg : List Char := "GET /switch/-1 HTTP/1.1\r\n\r\n".toList

/-! ### Supporting lemmas -/

lemma apply_queue_op_count_le (buf : PacketBuffer) (op : QueueOp)
    (h : buf.count ≤ PACKET_BUFFER_SIZE) :
    (apply_queue_op buf op).count ≤ PACKET_BUFFER_SIZE := by
  cases op with
  | putOp pkt =>
      by_cases h1 : buf.count ≥ PACKET_BUFFER_SIZE ∧ buf.eof = false
      · simp [apply_queue_op, packet_buffer_put, h1, h]
      · by_cases h2 : buf.eof = true
        · simp [apply_queue_op, packet_buffer_put, h1, h2, h]
        · have hlt : buf.count < PACKET_BUFFER_SIZE := by
            rcases Nat.lt_or_ge buf.count PACKET_BUFFER_SIZE with hlt | hge
            · exact hlt
            · exact absurd ⟨hge, by simpa using h2⟩ h1
          have hnle : ¬ PACKET_BUFFER_SIZE ≤ buf.count := Nat.not_le.mpr hlt
          simp [apply_queue_op, packet_buffer_put, h1, h2, hnle]
          omega
  | getOp =>
      by_cases h1 : buf.count = 0 ∧ buf.eof = false
      · simp [apply_queue_op, packet_buffer_get, h1, h]
      · by_cases h2 : buf.count = 0 ∧ buf.eof = true
        · simp [apply_queue_op, packet_buffer_get, h1, h2, h]
        · simp [apply_queue_op, packet_buffer_get, h1, h2]
          omega
  | tryGetOp =>
      by_cases h1 : buf.count = 0
      · simp [apply_queue_op, packet_buffer_try_get, h1, h]
      · simp [apply_queue_op, packet_buffer_try_get, h1]
        omega
  | setEofOp =>
      simpa [apply_queue_op, packet_buffer_set_eof] using h

lemma foldl_queue_count_le (ops : List QueueOp) (buf : PacketBuffer)
    (h : buf.count ≤ PACKET_BUFFER_SIZE) :
    (ops.foldl apply_queue_op buf).count ≤ PACKET_BUFFER_SIZE := by
  induction ops generalizing buf with
  | nil => simpa using h
  | cons op rest ih =>
      simpa using ih (apply_queue_op buf op) (apply_queue_op_count_le buf op h)

lemma bufContents_cons (buf : PacketBuffer) (n : Nat) (hc : buf.count = n + 1)
    (hr : buf.read_index < PACKET_BUFFER_SIZE) :
    bufContents buf = buf.packets buf.read_index ::
      (List.range n).map
        (fun i => buf.packets
          (((buf.read_index + 1) % PACKET_BUFFER_SIZE + i) % PACKET_BUFFER_SIZE)) := by
  unfold bufContents
  rw [hc, List.range_succ_eq_map, List.map_cons, List.map_map]
  rw [List.cons_eq_cons]
  constructor
  · rw [Nat.add_zero, Nat.mod_eq_of_lt hr]
  · apply List.map_congr_left
    intro i _
    simp only [Function.comp]
    rw [Nat.mod_add_mod]
    have harg : buf.read_index + 1 + i = buf.read_index + Nat.succ i := by omega
    rw [harg]

/-! ### Claim theorems -/

/-- Claim C7, corrected: packet_buffer_try_get removes and returns the
front of the FIFO when the ring is non-empty, and on an empty ring it
returns the "would block" signal AVERROR(EAGAIN) regardless of the eof
flag — the claimed distinct empty+eof "end of stream" answer does not
exist in the code. -/
theorem C7_try_get_semantics (buf : PacketBuffer)
    (hr : buf.read_index < PACKET_BUFFER_SIZE) :
    (buf.count ≠ 0 →
       ∃ pkt buf2, packet_buffer_try_get buf = .ok pkt buf2 ∧
         bufContents buf = pkt :: bufContents buf2 ∧
         buf2.count = buf.count - 1 ∧ buf2.eof = buf.eof)
  ∧ (buf.count = 0 → packet_buffer_try_get buf = .again) := by
  constructor
  · intro hne
    obtain ⟨n, hn⟩ : ∃ n, buf.count = n + 1 := by
      cases hcv : buf.count with
      | zero => exact absurd hcv hne
      | succ n => exact ⟨n, rfl⟩
    refine ⟨buf.packets buf.read_index,
      { buf with read_index := (buf.read_index + 1) % PACKET_BUFFER_SIZE,
                 count := buf.count - 1 }, ?_, ?_, rfl, rfl⟩
    · unfold packet_buffer_try_get
      rw [if_neg hne]
    · rw [bufContents_cons buf n hn hr]
      unfold bufContents
      simp only [hn, Nat.add_sub_cancel]
  · intro h0
    unfold packet_buffer_try_get
    rw [if_pos h0]

/-- Claim C7 witness: the non-empty arm applied to a concrete one-packet
ring. -/
theorem C7_try_get_semantics_witness :
    ((bufWith [pkt_nonkey] false).count ≠ 0 →
       ∃ pkt buf2, packet_buffer_try_get (bufWith [pkt_nonkey] false) = .ok pkt buf2 ∧
         bufContents (bufWith [pkt_nonkey] false) = pkt :: bufContents buf2 ∧
         buf2.count = (bufWith [pkt_nonkey] false).count - 1 ∧
         buf2.eof = (bufWith [pkt_nonkey] false).eof)
  ∧ ((bufWith [pkt_nonkey] false).count = 0 →
       packet_buffer_try_get (bufWith [pkt_nonkey] false) = .again) :=
  C7_try_get_semantics (bufWith [pkt_nonkey] false) (by decide)

/-- Claim C7 counterexample: on the empty ring with eof set, try_get
answers the "would block" signal AVERROR(EAGAIN), not the claimed
end-of-stream signal — while the blocking get on the same ring does
answer end-of-stream. -/
theorem C7_counterexample :
    packet_buffer_try_get (bufWith [] true) = .again ∧
    TryGetResult.again ≠ TryGetResult.eofR ∧
    (bufWith [] true).count = 0 ∧ (bufWith [] true).eof = true ∧
    packet_buffer_get (bufWith [] true) = .eofR := by
  refine ⟨rfl, ?_, rfl, rfl, rfl⟩
  intro h
  exact TryGetResult.noConfusion h

/-- Claim C8, confirmed: starting from the initialised ring, after any
history of put/get/try_get/set-eof operations the count stays within the
capacity 90; a put on a full, non-eof ring blocks, and a put after eof
returns "closed" without inserting. -/
theorem C8_queue_bound (ops : List QueueOp) (buf : PacketBuffer)
    (pkt : AVPacketM) :
    (run_queue_ops ops).count ≤ PACKET_BUFFER_SIZE
  ∧ (buf.count = PACKET_BUFFER_SIZE → buf.eof = false →
       packet_buffer_put buf pkt = .blocked)
  ∧ (buf.eof = true → packet_buffer_put buf pkt = .closed) := by
  refine ⟨?_, ?_, ?_⟩
  · exact foldl_queue_count_le ops packet_buffer_init_state (by
      simp [packet_buffer_init_state])
  · intro hc he
    unfold packet_buffer_put
    rw [if_pos ⟨le_of_eq hc.symm, he⟩]
  · intro he
    unfold packet_buffer_put
    rw [if_neg (by simp [he]), if_pos he]

/-- Claim C8 witness: a concrete history (two puts, a get, set-eof, a
rejected put), a concrete full ring and a concrete packet. -/
theorem C8_queue_bound_witness :
    (run_queue_ops [.putOp pkt_nonkey, .putOp pkt_key50, .getOp, .setEofOp,
        .putOp pkt_nonkey]).count ≤ PACKET_BUFFER_SIZE
  ∧ ((bufWith (List.replicate 90 pkt_nonkey) false).count = PACKET_BUFFER_SIZE →
       (bufWith (List.replicate 90 pkt_nonkey) false).eof = false →
       packet_buffer_put (bufWith (List.replicate 90 pkt_nonkey) false) pkt_key50
         = .blocked)
  ∧ ((bufWith (List.replicate 90 pkt_nonkey) false).eof = true →
       packet_buffer_put (bufWith (List.replicate 90 pkt_nonkey) false) pkt_key50
         = .closed) :=
  C8_queue_bound [.putOp pkt_nonkey, .putOp pkt_key50, .getOp, .setEofOp,
    .putOp pkt_nonkey] (bufWith (List.replicate 90 pkt_nonkey) false) pkt_key50

/-- Claim C4, code bug: at a state where the downstream consumer has
stalled (last consumption at 1000 ms, timeout 5000 ms, now 10000 ms) but
the reader still receives packets (last reception at 9900 ms), the
health-monitor code classifies the active source healthy because it
compares now against last_packet_time, while the classification the
claim (and the code's own comments) describe — consumption-based —
classifies it unhealthy. -/
theorem C4_consumption_vs_reception :
    active_source_health 10000 0 0 0 5000 5 9900 1000 = true ∧
    active_source_health_claim 10000 0 0 0 5000 5 9900 1000 = false := by
  decide

/-- Claim C6 counterexample: on the request "GET /status HTTP/1.1" the
control server leaves the state untouched and answers with the generic
400 response; the response never mentions active_source, so the claimed
status JSON is not produced. -/
theorem C6_counterexample :
    control_handle_request status_request ⟨3, 0, 0⟩ = (⟨3, 0, 0⟩, ctrl_response_bad) ∧
    strstr ctrl_response_bad.toList ("active_source".toList) = none ∧
    ctrl_response_bad ≠
      "\x7b\"active_source\":0,\"num_sources\":3\x7d" := by
  decide

/-- Claim C6, corrected: GET /status is not implemented by the control
server; for every control-plane state the request is answered by the 400
Bad Request response and nothing is mutated. -/
theorem C6_status_not_implemented (st : CtrlState) :
    control_handle_request status_request st = (st, ctrl_response_bad) := rfl

/-- Claim C5 counterexample: a valid manual switch "POST /switch/1"
updates the active source and answers 200, but leaves
last_manual_switch_time at its old value 0 — it is not set to the
current time (e.g. 5000) as the claim demands. -/
theorem C5_counterexample :
    (control_handle_request (switch_request 1) ⟨3, 0, 0⟩).1.active_source_index = 1 ∧
    (control_handle_request (switch_request 1) ⟨3, 0, 0⟩).2 = ctrl_response_ok 1 ∧
    (control_handle_request (switch_request 1) ⟨3, 0, 0⟩).1.last_manual_switch_time = 0 ∧
    (0 : Int) ≠ 5000 := by
  decide

lemma strstr_of_isPrefixOf (hay pat : List Char) (h : pat.isPrefixOf hay = true) :
    strstr hay pat = some hay := by
  cases hay with
  | nil => simp [strstr, h]
  | cons c rest => simp [strstr, h]

lemma atoi_of_leading_nondigit (c : Char) (rest : List Char)
    (hd : c.isDigit = false) (hw : c_isspace c = false)
    (hplus : c ≠ '+') (hminus : c ≠ '-') :
    atoi (c :: rest) = 0 := by
  unfold atoi
  have hskip : atoi_skip_ws (c :: rest) = c :: rest := by
    show (if c_isspace c then atoi_skip_ws rest else c :: rest) = c :: rest
    rw [hw]
    simp
  rw [hskip]
  show (if c = '-' then - atoi_digits rest 0
        else if c = '+' then atoi_digits rest 0
        else atoi_digits (c :: rest) 0) = 0
  rw [if_neg hminus, if_neg hplus]
  show (if c.isDigit then atoi_digits rest ((0 : Int) * 10 + ((c.toNat : Int) - 48))
        else 0) = 0
  rw [hd]
  simp

lemma natDigitChar_isDigit : ∀ d, d < 10 → (natDigitChar d).isDigit = true := by
  decide

lemma natDigitChar_toNat : ∀ d, d < 10 → (natDigitChar d).toNat = 48 + d := by
  decide

lemma natDecimalAux_acc (fuel : Nat) : ∀ n acc,
    natDecimalAux fuel n acc = natDecimalAux fuel n [] ++ acc := by
  induction fuel with
  | zero => intro n acc; rfl
  | succ fuel ih =>
      intro n acc
      simp only [natDecimalAux]
      by_cases h : n < 10
      · rw [if_pos h, if_pos h]
        rfl
      · rw [if_neg h, if_neg h, ih (n / 10) (natDigitChar (n % 10) :: acc),
          ih (n / 10) [natDigitChar (n % 10)], List.append_assoc]
        rfl

lemma natDecimalAux_fuel (f1 : Nat) : ∀ f2 n acc, n < f1 → n < f2 →
    natDecimalAux f1 n acc = natDecimalAux f2 n acc := by
  induction f1 with
  | zero =>
      intro f2 n acc h1 _
      exact absurd h1 (Nat.not_lt_zero n)
  | succ f1 ih =>
      intro f2 n acc h1 h2
      cases f2 with
      | zero => exact absurd h2 (Nat.not_lt_zero n)
      | succ f2 =>
          simp only [natDecimalAux]
          by_cases h : n < 10
          · rw [if_pos h, if_pos h]
          · rw [if_neg h, if_neg h]
            exact ih f2 (n / 10) _ (by omega) (by omega)

lemma natDecimal_small (n : Nat) (h : n < 10) :
    natDecimal n = [natDigitChar n] := by
  unfold natDecimal
  simp only [natDecimalAux]
  rw [if_pos h]

lemma natDecimal_split (n : Nat) (h : 10 ≤ n) :
    natDecimal n = natDecimal (n / 10) ++ [natDigitChar (n % 10)] := by
  have h1 : natDecimal n = natDecimalAux n (n / 10) [natDigitChar (n % 10)] := by
    unfold natDecimal
    simp only [natDecimalAux]
    rw [if_neg (by omega)]
  rw [h1, natDecimalAux_acc,
    natDecimalAux_fuel n (n / 10 + 1) (n / 10) [] (by omega) (by omega)]
  rfl

lemma natDecimal_digits : ∀ n : Nat, ∀ c ∈ natDecimal n, c.isDigit = true := by
  intro n
  induction n using Nat.strong_induction_on with
  | _ n ih =>
      by_cases h : n < 10
      · intro c hc
        rw [natDecimal_small n h] at hc
        simp only [List.mem_singleton] at hc
        subst hc
        exact natDigitChar_isDigit n h
      · intro c hc
        rw [natDecimal_split n (by omega)] at hc
        rcases List.mem_append.mp hc with h1 | h2
        · exact ih (n / 10) (by omega) c h1
        · simp only [List.mem_singleton] at h2
          subst h2
          exact natDigitChar_isDigit (n % 10) (by omega)

lemma natDecimal_ne_nil (n : Nat) : natDecimal n ≠ [] := by
  by_cases h : n < 10
  · rw [natDecimal_small n h]
    simp
  · rw [natDecimal_split n (by omega)]
    simp

lemma isDigit_not_space (c : Char) (h : c.isDigit = true) : c_isspace c = false := by
  unfold c_isspace
  apply decide_eq_false
  rintro (rfl | rfl | rfl | rfl | rfl | rfl) <;> exact absurd h (by decide)

lemma isDigit_ne_minus (c : Char) (h : c.isDigit = true) : c ≠ '-' := by
  rintro rfl
  exact absurd h (by decide)

lemma isDigit_ne_plus (c : Char) (h : c.isDigit = true) : c ≠ '+' := by
  rintro rfl
  exact absurd h (by decide)

lemma atoi_digits_nondigit (c : Char) (rest : List Char) (k : Int)
    (h : c.isDigit = false) :
    atoi_digits (c :: rest) k = k := by
  simp [atoi_digits, h]

lemma atoi_digits_append : ∀ ds : List Char, (∀ c ∈ ds, c.isDigit = true) →
    ∀ rest k, atoi_digits (ds ++ rest) k = atoi_digits rest (atoi_digits ds k) := by
  intro ds
  induction ds with
  | nil => intro _ rest k; rfl
  | cons c t ih =>
      intro hds rest k
      have hc := hds c (List.mem_cons_self c t)
      simp only [List.cons_append, atoi_digits, hc, if_true]
      exact ih (fun x hx => hds x (List.mem_cons_of_mem c hx)) rest
        (k * 10 + ((c.toNat : Int) - 48))

lemma atoi_digits_natDecimal : ∀ n : Nat, atoi_digits (natDecimal n) 0 = n := by
  intro n
  induction n using Nat.strong_induction_on with
  | _ n ih =>
      by_cases h : n < 10
      · rw [natDecimal_small n h]
        have hd := natDigitChar_isDigit n h
        have ht := natDigitChar_toNat n h
        simp only [atoi_digits, hd, if_true, ht]
        push_cast
        omega
      · rw [natDecimal_split n (by omega),
          atoi_digits_append (natDecimal (n / 10)) (natDecimal_digits (n / 10)),
          ih (n / 10) (by omega)]
        have hd := natDigitChar_isDigit (n % 10) (by omega : n % 10 < 10)
        have ht := natDigitChar_toNat (n % 10) (by omega : n % 10 < 10)
        simp only [atoi_digits, hd, if_true, ht]
        push_cast
        omega

lemma atoi_natDecimal_space (n : Nat) (rest : List Char) :
    atoi (natDecimal n ++ ' ' :: rest) = n := by
  obtain ⟨c, t, hct⟩ : ∃ c t, natDecimal n = c :: t := by
    cases h : natDecimal n with
    | nil => exact absurd h (natDecimal_ne_nil n)
    | cons c t => exact ⟨c, t, rfl⟩
  have hcd : c.isDigit = true :=
    natDecimal_digits n c (by rw [hct]; exact List.mem_cons_self c t)
  unfold atoi
  rw [hct, List.cons_append]
  have hskip : atoi_skip_ws (c :: (t ++ ' ' :: rest)) = c :: (t ++ ' ' :: rest) := by
    show (if c_isspace c then atoi_skip_ws (t ++ ' ' :: rest)
          else c :: (t ++ ' ' :: rest)) = c :: (t ++ ' ' :: rest)
    rw [isDigit_not_space c hcd]
    simp
  rw [hskip]
  show (if c = '-' then - atoi_digits (t ++ ' ' :: rest) 0
        else if c = '+' then atoi_digits (t ++ ' ' :: rest) 0
        else atoi_digits (c :: (t ++ ' ' :: rest)) 0) = (n : Int)
  rw [if_neg (isDigit_ne_minus c hcd), if_neg (isDigit_ne_plus c hcd),
    ← List.cons_append, ← hct,
    atoi_digits_append (natDecimal n) (natDecimal_digits n) (' ' :: rest) 0,
    atoi_digits_natDecimal n]
  exact atoi_digits_nondigit ' ' rest (n : Int) (by decide)

lemma parse_switch_request (n : Nat) :
    parse_switch_target (switch_request n) = (n : Int) := by
  have hform : switch_request n
      = ("POST /switch/".toList) ++ (natDecimal n ++ (" HTTP/1.1\r\n\r\n".toList)) := by
    simp [switch_request, List.append_assoc]
  have hpre : ("POST /switch/".toList).isPrefixOf (switch_request n) = true := by
    rw [List.isPrefixOf_iff_prefix, hform]
    exact List.prefix_append _ _
  have hchr : strchr (switch_request n) '/'
      = some (("/switch/".toList) ++ (natDecimal n ++ (" HTTP/1.1\r\n\r\n".toList))) := by
    rw [hform]
    rfl
  unfold parse_switch_target
  simp only [strstr_of_isPrefixOf _ _ hpre, hchr]
  have hdrop : ((("/switch/".toList) ++ (natDecimal n ++ (" HTTP/1.1\r\n\r\n".toList)))).drop 8
      = natDecimal n ++ (" HTTP/1.1\r\n\r\n".toList) := rfl
  rw [hdrop,
    show (" HTTP/1.1\r\n\r\n".toList) = ' ' :: ("HTTP/1.1\r\n\r\n".toList) from rfl]
  exact atoi_natDecimal_space n _

/-- Claim C5, corrected: for every in-range decimal target N the HTTP
handler stores N as the active source and answers 200 with the ok JSON,
but does not touch last_manual_switch_time (only the CLI switch path
records manual-switch times); every out-of-range decimal target M is
answered 400 Bad Request with no state change. -/
theorem C5_switch_handler (st : CtrlState) (N : Nat)
    (h1 : N < st.num_sources) (M : Nat) (hM : st.num_sources ≤ M) :
    (control_handle_request (switch_request N) st).1.active_source_index = N ∧
    (control_handle_request (switch_request N) st).1.last_manual_switch_time
      = st.last_manual_switch_time ∧
    (control_handle_request (switch_request N) st).1.num_sources = st.num_sources ∧
    (control_handle_request (switch_request N) st).2 = ctrl_response_ok (N : Int) ∧
    control_handle_request (switch_request M) st = (st, ctrl_response_bad) := by
  have hlen : ∀ n : Nat, ¬ ((switch_request n).length = 0) := by
    intro n
    simp [switch_request]
  have hmain : control_handle_request (switch_request N) st
      = ({ st with active_source_index := N }, ctrl_response_ok (N : Int)) := by
    unfold control_handle_request
    rw [if_neg (hlen N)]
    simp only [parse_switch_request N]
    rw [if_pos ⟨Int.natCast_nonneg N, by exact_mod_cast h1⟩]
    simp
  have hbad : control_handle_request (switch_request M) st
      = (st, ctrl_response_bad) := by
    unfold control_handle_request
    rw [if_neg (hlen M)]
    simp only [parse_switch_request M]
    rw [if_neg]
    intro hcon
    rcases hcon with ⟨-, hlt⟩
    have hcast : (st.num_sources : Int) ≤ (M : Int) := by exact_mod_cast hM
    omega
  exact ⟨by rw [hmain], by rw [hmain], by rw [hmain], by rw [hmain], hbad⟩

/-- Claim C5 witness: switching a three-source state to source 1, with
the out-of-range target 99 rejected. -/
theorem C5_switch_handler_witness :
    (control_handle_request (switch_request 1) ⟨3, 2, 7⟩).1.active_source_index = 1 ∧
    (control_handle_request (switch_request 1) ⟨3, 2, 7⟩).1.last_manual_switch_time
      = (⟨3, 2, 7⟩ : CtrlState).last_manual_switch_time ∧
    (control_handle_request (switch_request 1) ⟨3, 2, 7⟩).1.num_sources
      = (⟨3, 2, 7⟩ : CtrlState).num_sources ∧
    (control_handle_request (switch_request 1) ⟨3, 2, 7⟩).2 = ctrl_response_ok (1 : Int) ∧
    control_handle_request (switch_request 99) ⟨3, 2, 7⟩ = (⟨3, 2, 7⟩, ctrl_response_bad) :=
  C5_switch_handler ⟨3, 2, 7⟩ 1 (by decide) 99 (by decide)

/-- Claim C9 counterexample: the claim quantifies over every switch
target not beginning with a decimal digit, but the target "-1" (which
begins with a sign, not a digit) makes atoi yield -1, so the request is
rejected with 400 and the active source stays 2 — not the claimed
switch-to-0 with 200. -/
theorem C9_counterexample :
    control_handle_request switch_request_neg ⟨3, 2, 0⟩ = (⟨3, 2, 0⟩, ctrl_response_bad) ∧
    parse_switch_target switch_request_neg = -1 ∧
    ctrl_response_bad ≠ ctrl_response_ok 0 := by
  decide

/-- Claim C9, corrected: for a switch target beginning with a character
that is neither a decimal digit nor whitespace nor a sign (for example
/switch/abc), atoi yields 0, the handler accepts it (num_sources ≥ 1),
stores source 0 and answers 200. -/
theorem C9_nondigit_switch_target (st : CtrlState) (c : Char) (rest : List Char)
    (hd : c.isDigit = false) (hw : c_isspace c = false)
    (hplus : c ≠ '+') (hminus : c ≠ '-')
    (hn : 1 ≤ st.num_sources)
    (hpost : strstr (("GET /switch/".toList) ++ c :: rest)
        ("POST /switch/".toList) = none) :
    control_handle_request (("GET /switch/".toList) ++ c :: rest) st =
      ({ st with active_source_index := 0 }, ctrl_response_ok 0) := by
  have hget : strstr (("GET /switch/".toList) ++ c :: rest) ("GET /switch/".toList)
      = some (("GET /switch/".toList) ++ c :: rest) :=
    strstr_of_isPrefixOf _ _ (by
      rw [List.isPrefixOf_iff_prefix]
      exact List.prefix_append _ _)
  have hchr : strchr (("GET /switch/".toList) ++ c :: rest) '/'
      = some (("/switch/".toList) ++ c :: rest) := rfl
  have hparse : parse_switch_target (("GET /switch/".toList) ++ c :: rest) = 0 := by
    unfold parse_switch_target
    rw [hpost]
    simp only [hget, hchr]
    have hdrop : (("/switch/".toList) ++ c :: rest).drop 8 = c :: rest := rfl
    rw [hdrop]
    exact atoi_of_leading_nondigit c rest hd hw hplus hminus
  have hlen2 : ¬ (((("GET /switch/".toList) ++ c :: rest)).length = 0) := by simp
  unfold control_handle_request
  rw [if_neg hlen2]
  simp only [hparse]
  rw [if_pos ⟨le_refl (0 : Int), by exact_mod_cast hn⟩]
  simp

/-- Claim C9 witness: the request "GET /switch/abc HTTP/1.1" against a
three-source state on source 2 switches to source 0 with a 200 answer. -/
theorem C9_nondigit_switch_target_witness :
    control_handle_request (("GET /switch/".toList) ++ 'a' :: ("bc HTTP/1.1\r\n\r\n".toList)) ⟨3, 2, 0⟩ =
      ({ (⟨3, 2, 0⟩ : CtrlState) with active_source_index := 0 }, ctrl_response_ok 0) :=
  C9_nondigit_switch_target ⟨3, 2, 0⟩ 'a' ("bc HTTP/1.1\r\n\r\n".toList)
    (by decide) (by decide) (by decide) (by decide) (by decide) (by decide)

lemma first_healthy_from_none (healthy : Nat → Bool) (bound : Nat) :
    ∀ k i, bound - i ≤ k →
      (∀ j, i ≤ j → j < bound → healthy j = false) →
      first_healthy_from healthy bound i = -1 := by
  intro k
  induction k with
  | zero =>
      intro i hk _
      unfold first_healthy_from
      rw [if_neg (by omega)]
  | succ k ih =>
      intro i hk h
      unfold first_healthy_from
      by_cases hib : i < bound
      · rw [if_pos hib, h i le_rfl hib]
        simp only [Bool.false_eq_true, if_false]
        exact ih (i+1) (by omega) (fun j hj1 hj2 => h j (by omega) hj2)
      · rw [if_neg hib]

lemma first_healthy_from_finds (healthy : Nat → Bool) (bound : Nat) :
    ∀ k i j, bound - i ≤ k → i ≤ j → j < bound → healthy j = true →
      (∀ l, i ≤ l → l < j → healthy l = false) →
      first_healthy_from healthy bound i = (j : Int) := by
  intro k
  induction k with
  | zero =>
      intro i j hk hij hjb _ _
      exact absurd hjb (by omega)
  | succ k ih =>
      intro i j hk hij hjb hj hfalse
      unfold first_healthy_from
      rw [if_pos (by omega : i < bound)]
      by_cases hij2 : i = j
      · subst hij2
        rw [hj]
        simp
      · rw [hfalse i le_rfl (by omega)]
        simp only [Bool.false_eq_true, if_false]
        exact ih (i+1) j (by omega) (by omega) hjb hj
          (fun l hl1 hl2 => hfalse l (by omega) hl2)

/-- Claim C3, confirmed: whenever the failover policy runs for an
unhealthy active source, (1) a non-black active source yields the black
interim num_sources-1 as pending target, (2) on the black source the
lowest-indexed healthy real source is installed, (3) with no healthy
real source nothing is installed and the state is untouched (the black
source keeps serving), (4) a target is installed only when no switch is
already pending, and (5) the read-path end-of-stream failover applies
the same two-stage selection. -/
theorem C3_two_stage_failover (st : MSwitchState) (now : Int)
    (hunh : st.is_healthy st.active_source_index = false)
    (hnp : st.pending_switch_to < 0) :
    (st.active_source_index ≠ st.num_sources - 1 →
       (health_failover_step st now).pending_switch_to
          = ((st.num_sources - 1 : Nat) : Int) ∧
       (health_failover_step st now).wait_for_iframe = true ∧
       (health_failover_step st now).pending_switch_time = now)
  ∧ (∀ j, st.active_source_index = st.num_sources - 1 →
       j < st.num_sources - 1 → st.is_healthy j = true →
       (∀ l, l < j → st.is_healthy l = false) →
       (health_failover_step st now).pending_switch_to = (j : Int) ∧
       (health_failover_step st now).wait_for_iframe = true)
  ∧ (st.active_source_index = st.num_sources - 1 →
       (∀ j, j < st.num_sources - 1 → st.is_healthy j = false) →
       health_failover_step st now = st)
  ∧ (∀ (st2 : MSwitchState) (now2 : Int), (0 : Int) ≤ st2.pending_switch_to →
       (health_failover_step st2 now2).pending_switch_to = st2.pending_switch_to)
  ∧ (st.auto_failover_enabled = true → 3000 ≤ now - st.last_manual_switch_time →
       (st.active_source_index ≠ st.num_sources - 1 →
          eof_failover st now = .again { st with
            pending_switch_to := ((st.num_sources - 1 : Nat) : Int),
            wait_for_iframe := true,
            pending_switch_time := now }) ∧
       (st.active_source_index = st.num_sources - 1 →
          (∀ j, j < st.num_sources - 1 → st.is_healthy j = false) →
          eof_failover st now = .again st)) := by
  refine ⟨?_, ?_, ?_, ?_, ?_⟩
  · intro hne
    have hbest : failover_best_source st.is_healthy st.active_source_index
        st.num_sources = ((st.num_sources - 1 : Nat) : Int) := by
      unfold failover_best_source
      rw [if_pos hne]
    unfold health_failover_step
    rw [hunh]
    simp only [Bool.false_eq_true, if_false]
    rw [hbest, if_pos (Int.natCast_nonneg _), if_pos hnp]
    exact ⟨rfl, rfl, rfl⟩
  · intro j hblack hjb hj hmin
    have hbest : failover_best_source st.is_healthy st.active_source_index
        st.num_sources = (j : Int) := by
      unfold failover_best_source
      rw [if_neg (by simpa using hblack)]
      exact first_healthy_from_finds st.is_healthy (st.num_sources - 1)
        (st.num_sources - 1) 0 j (by omega) (Nat.zero_le j) hjb hj
        (fun l _ hl => hmin l hl)
    unfold health_failover_step
    rw [hunh]
    simp only [Bool.false_eq_true, if_false]
    rw [hbest, if_pos (Int.natCast_nonneg _), if_pos hnp]
    exact ⟨rfl, rfl⟩
  · intro hblack hnone
    have hbest : failover_best_source st.is_healthy st.active_source_index
        st.num_sources = -1 := by
      unfold failover_best_source
      rw [if_neg (by simpa using hblack)]
      exact first_healthy_from_none st.is_healthy (st.num_sources - 1)
        (st.num_sources - 1) 0 (by omega) (fun l _ hl => hnone l hl)
    unfold health_failover_step
    rw [hunh]
    simp only [Bool.false_eq_true, if_false]
    rw [hbest]
    norm_num
  · intro st2 now2 hpend
    unfold health_failover_step
    by_cases hh : st2.is_healthy st2.active_source_index
    · rw [if_pos hh]
    · rw [if_neg hh]
      by_cases hb : (0 : Int) ≤ failover_best_source st2.is_healthy
          st2.active_source_index st2.num_sources
      · rw [if_pos hb, if_neg (by omega)]
      · rw [if_neg hb]
  · intro hauto hgrace
    constructor
    · intro hne
      have hbest : failover_best_source st.is_healthy st.active_source_index
          st.num_sources = ((st.num_sources - 1 : Nat) : Int) := by
        unfold failover_best_source
        rw [if_pos hne]
      unfold eof_failover
      rw [if_pos hauto, if_neg (by omega), hbest,
        if_pos (Int.natCast_nonneg _), if_pos hnp]
    · intro hblack hnone
      have hbest : failover_best_source st.is_healthy st.active_source_index
          st.num_sources = -1 := by
        unfold failover_best_source
        rw [if_neg (by simpa using hblack)]
        exact first_healthy_from_none st.is_healthy (st.num_sources - 1)
          (st.num_sources - 1) 0 (by omega) (fun l _ hl => hnone l hl)
      unfold eof_failover
      rw [if_pos hauto, if_neg (by omega), hbest]
      norm_num

/-- Claim C3 witness: the policy applied to a three-source state serving
the black interim (source 2) with source 1 healthy and source 0 down. -/
theorem C3_two_stage_failover_witness :
    ((c3_state_black.active_source_index ≠ c3_state_black.num_sources - 1 →
       (health_failover_step c3_state_black 9000).pending_switch_to
          = ((c3_state_black.num_sources - 1 : Nat) : Int) ∧
       (health_failover_step c3_state_black 9000).wait_for_iframe = true ∧
       (health_failover_step c3_state_black 9000).pending_switch_time = 9000)
  ∧ (∀ j, c3_state_black.active_source_index = c3_state_black.num_sources - 1 →
       j < c3_state_black.num_sources - 1 → c3_state_black.is_healthy j = true →
       (∀ l, l < j → c3_state_black.is_healthy l = false) →
       (health_failover_step c3_state_black 9000).pending_switch_to = (j : Int) ∧
       (health_failover_step c3_state_black 9000).wait_for_iframe = true)
  ∧ (c3_state_black.active_source_index = c3_state_black.num_sources - 1 →
       (∀ j, j < c3_state_black.num_sources - 1 →
          c3_state_black.is_healthy j = false) →
       health_failover_step c3_state_black 9000 = c3_state_black)
  ∧ (∀ (st2 : MSwitchState) (now2 : Int), (0 : Int) ≤ st2.pending_switch_to →
       (health_failover_step st2 now2).pending_switch_to = st2.pending_switch_to)
  ∧ (c3_state_black.auto_failover_enabled = true →
       3000 ≤ 9000 - c3_state_black.last_manual_switch_time →
       (c3_state_black.active_source_index ≠ c3_state_black.num_sources - 1 →
          eof_failover c3_state_black 9000 = .again { c3_state_black with
            pending_switch_to := ((c3_state_black.num_sources - 1 : Nat) : Int),
            wait_for_iframe := true,
            pending_switch_time := 9000 }) ∧
       (c3_state_black.active_source_index = c3_state_black.num_sources - 1 →
          (∀ j, j < c3_state_black.num_sources - 1 →
             c3_state_black.is_healthy j = false) →
          eof_failover c3_state_black 9000 = .again c3_state_black))) := by
  have hmain := C3_two_stage_failover c3_state_black 9000 (by decide) (by decide)
  exact hmain

lemma normalize_preserves_flags_data (st : MSwitchState) (a : Nat) (now : Int)
    (pkt : AVPacketM) :
    (normalize_timestamps st a now pkt).2.flags = pkt.flags ∧
    (normalize_timestamps st a now pkt).2.data = pkt.data := by
  cases hfp : st.first_packet with
  | true =>
      unfold normalize_timestamps
      rw [show ({ st with last_consumption_time := fun j =>
        if j = a then now else st.last_consumption_time j } : MSwitchState).first_packet
        = true from hfp]
      exact ⟨rfl, rfl⟩
  | false =>
      unfold normalize_timestamps
      rw [show ({ st with last_consumption_time := fun j =>
        if j = a then now else st.last_consumption_time j } : MSwitchState).first_packet
        = false from hfp]
      exact ⟨rfl, rfl⟩

lemma normalize_first_packet (st : MSwitchState) (a : Nat) (now : Int)
    (pkt : AVPacketM) (hf : st.first_packet = true) :
    (normalize_timestamps st a now pkt).2 = pkt ∧
    (normalize_timestamps st a now pkt).1.active_source_index
      = st.active_source_index := by
  unfold normalize_timestamps
  rw [show ({ st with last_consumption_time := fun j =>
    if j = a then now else st.last_consumption_time j } : MSwitchState).first_packet
    = true from hf]
  exact ⟨rfl, rfl⟩

/-- Claim C10, confirmed: the forced-switch path judges keyframes by the
container flag alone, so a packet carrying an IDR/SPS/PPS NAL start code
but no AV_PKT_FLAG_KEY bit is discarded there (try-again, pending kept),
even though the try_get-path classification (flag OR scanner) counts the
same packet as a keyframe. -/
theorem C10_forced_path_flag_only (st : MSwitchState) (now : Int) (p : Nat)
    (pkt : AVPacketM) (buf2 : PacketBuffer)
    (hflag : pkt.flags &&& 1 = 0)
    (hlen : 4 < pkt.data.length)
    (hscan : h264_scan_suffix pkt.data = true) :
    forced_switch_continue st now p (.ok pkt buf2) = .again (setBuf st p buf2) ∧
    read_is_keyframe pkt = true := by
  constructor
  · simp [forced_switch_continue, hflag]
  · unfold read_is_keyframe
    rw [if_neg (by simp [hflag]), if_pos hlen]
    exact hscan

/-- Claim C10 witness: a packet whose payload is 00 00 01 65 ... (IDR NAL
type 5) with AV_PKT_FLAG_KEY clear. -/
theorem C10_forced_path_flag_only_witness :
    forced_switch_continue c2_state0 4000 1 (.ok pkt_idr_noflag (bufWith [] false))
      = .again (setBuf c2_state0 1 (bufWith [] false)) ∧
    read_is_keyframe pkt_idr_noflag = true :=
  C10_forced_path_flag_only c2_state0 4000 1 pkt_idr_noflag (bufWith [] false)
    (by decide) (by decide) (by decide)

/-- Claim C2 counterexample: with a switch to source 1 pending since time
0, at time 4000 the 3-second timeout fallback finalises the switch on the
non-keyframe packet offered by source 1 and emits it — the first packet
delivered from the newly activated source is not a keyframe. -/
theorem C2_counterexample :
    (mswitchdirect_read_packet c2_state0 4000).emitted = some pkt_nonkey ∧
    read_is_keyframe pkt_nonkey = false ∧
    c2_state0.active_source_index = 0 ∧
    (mswitchdirect_read_packet c2_state0 4000).nextState.active_source_index = 1 ∧
    (mswitchdirect_read_packet c2_state0 4000).nextState.pending_switch_to = -1 := by
  decide

/-- Claim C2, corrected: the forced-switch path does discard a
non-keyframe (try-again, pending switch kept), but the guarantee does
not extend to every execution: whenever the pending source's packet
arrives after more than 3000 ms of waiting, the switch is finalised and
that packet is emitted as the first packet of the new active source even
though it is not a keyframe. -/
theorem C2_first_packet_keyframe (st : MSwitchState) (now : Int) (p : Nat)
    (pkt : AVPacketM) (buf2 : PacketBuffer)
    (hflag : pkt.flags &&& 1 = 0)
    (st2 : MSwitchState) (now2 : Int) (p2 : Nat) (pkt2 : AVPacketM)
    (buf3 : PacketBuffer)
    (hpend : st2.pending_switch_to = (p2 : Int))
    (htry : packet_buffer_try_get (st2.buf p2) = .ok pkt2 buf3)
    (hkey : read_is_keyframe pkt2 = false)
    (hforce : 3000 < now2 - st2.pending_switch_time) :
    (forced_switch_continue st now p (.ok pkt buf2) = .again (setBuf st p buf2) ∧
     (forced_switch_continue st now p (.ok pkt buf2)).nextState.pending_switch_to
        = st.pending_switch_to) ∧
    ((mswitchdirect_read_packet st2 now2).emitted = some pkt2 ∧
     read_is_keyframe pkt2 = false ∧
     (mswitchdirect_read_packet st2 now2).nextState.active_source_index = p2) := by
  have h0 : (0 : Int) ≤ st2.pending_switch_to := by
    rw [hpend]
    exact Int.natCast_nonneg p2
  have htn : st2.pending_switch_to.toNat = p2 := by
    rw [hpend]
    simp
  have hrp : mswitchdirect_read_packet st2 now2 =
      .ok (normalize_timestamps (finalize_switch (setBuf st2 p2 buf3) p2) p2 now2 pkt2).2
          (normalize_timestamps (finalize_switch (setBuf st2 p2 buf3) p2) p2 now2 pkt2).1 := by
    simp [mswitchdirect_read_packet, h0, htn, htry, hkey, decide_eq_true hforce]
  have hfp : (finalize_switch (setBuf st2 p2 buf3) p2).first_packet = true := rfl
  obtain ⟨hemit, hact⟩ :=
    normalize_first_packet (finalize_switch (setBuf st2 p2 buf3) p2) p2 now2 pkt2 hfp
  refine ⟨⟨?_, ?_⟩, ?_, hkey, ?_⟩
  · simp [forced_switch_continue, hflag]
  · simp [forced_switch_continue, hflag, ReadResult.nextState, setBuf]
  · rw [hrp]
    simp [ReadResult.emitted, hemit]
  · rw [hrp]
    simp only [ReadResult.nextState]
    rw [hact]
    rfl

/-- Claim C2 witness: the forced-path arm applied to a concrete
non-keyframe, and the timeout arm applied to the concrete pending state
of the counterexample. -/
theorem C2_first_packet_keyframe_witness :
    ((forced_switch_continue c1_state0 4000 1 (.ok pkt_nonkey (bufWith [] false))
        = .again (setBuf c1_state0 1 (bufWith [] false)) ∧
      (forced_switch_continue c1_state0 4000 1 (.ok pkt_nonkey (bufWith [] false))).nextState.pending_switch_to
        = c1_state0.pending_switch_to) ∧
     ((mswitchdirect_read_packet c2_state0 4000).emitted = some pkt_nonkey ∧
      read_is_keyframe pkt_nonkey = false ∧
      (mswitchdirect_read_packet c2_state0 4000).nextState.active_source_index = 1)) :=
  C2_first_packet_keyframe c1_state0 4000 1 pkt_nonkey (bufWith [] false)
    (by decide) c2_state0 4000 1 pkt_nonkey c2_buf1_after
    (by decide) rfl (by decide) (by decide)

/-- Claim C1 counterexample: a three-call trace through the read path.
Call 1 emits source 0's packet with dts 1000 (the baseline). Source 0
then hits end-of-stream, so call 2 installs the failover to source 1 and
returns try-again. Call 3 finalises the switch on source 1's keyframe;
because finalisation resets first_packet and the remembered output dts,
the packet is emitted with its raw dts 50 — the emitted dts sequence
1000, 50 is not non-decreasing. -/
theorem C1_counterexample :
    (mswitchdirect_read_packet c1_state0 4000).emittedDts = some 1000 ∧
    (mswitchdirect_read_packet
      ((mswitchdirect_read_packet c1_state0 4000).nextState) 4000).isAgain = true ∧
    (mswitchdirect_read_packet
      ((mswitchdirect_read_packet
        ((mswitchdirect_read_packet c1_state0 4000).nextState) 4000).nextState)
      4000).emittedDts = some 50 ∧
    ¬ ((1000 : Int) ≤ 50) := by
  decide

/-- Claim C1, corrected: the offset mechanism bounds how far the output
dts can regress only between baseline resets: when the normaliser runs
with first_packet clear, a remembered output dts e and a packet dts d,
the emitted dts d2 satisfies d2 ≥ e - 90000, and whenever the reanchoring
threshold fires (|e - d - offset| > 90000) the emitted dts equals e
exactly (a tie). Across a finalised switch the baseline is reset and the
first packet's raw dts is emitted, which may regress arbitrarily (see
the counterexample). -/
theorem C1_output_dts_regression_bound (st : MSwitchState) (active : Nat)
    (now : Int) (pkt : AVPacketM) (e d : Int)
    (h1 : st.first_packet = false) (h2 : st.last_output_dts = some e)
    (h3 : pkt.dts = some d) :
    ∃ d2, (normalize_timestamps st active now pkt).2.dts = some d2 ∧
      (normalize_timestamps st active now pkt).1.last_output_dts = some d2 ∧
      e - 90000 ≤ d2 ∧
      (90000 < (e - d - st.ts_offset active).natAbs → d2 = e) := by
  unfold normalize_timestamps
  rw [show ({ st with last_consumption_time := fun j =>
    if j = active then now else st.last_consumption_time j } : MSwitchState).first_packet
    = false from h1]
  simp only [h2, h3]
  by_cases hth : 90000 < (e - d - st.ts_offset active).natAbs
  · refine ⟨d + (e - d), ?_, ?_, by omega, fun _ => by omega⟩
    · simp [hth]
    · simp [hth]
  · refine ⟨d + st.ts_offset active, ?_, ?_, ?_, fun hc => absurd hc hth⟩
    · simp [hth]
    · simp [hth]
    · have : (e - d - st.ts_offset active).natAbs ≤ 90000 := by omega
      omega

/-- Claim C1 witness: the bound applied at a state with remembered output
dts 1000, zero offset and an incoming packet with dts 200. -/
theorem C1_output_dts_regression_bound_witness :
    ∃ d2, (normalize_timestamps c2_state0 0 4000 pkt_nonkey).2.dts = some d2 ∧
      (normalize_timestamps c2_state0 0 4000 pkt_nonkey).1.last_output_dts = some d2 ∧
      (1000 : Int) - 90000 ≤ d2 ∧
      (90000 < ((1000 : Int) - 200 - c2_state0.ts_offset 0).natAbs → d2 = 1000) :=
  C1_output_dts_regression_bound c2_state0 0 4000 pkt_nonkey 1000 200
    rfl rfl rfl
